import Mathlib

/-!
Verification development for the AI-logs-traces-analyzer repository.

Shallow embedding of the telemetry decoding and incident detection pipeline:
  - `src/app/services/otel_receiver.py`  (OTLP decoder and ingestion entry point)
  - `src/app/services/incident_analyzer.py`  (aggregation, rule evaluation,
    enrichment orchestration, incident registry)
  - `src/app/services/ollama_trainer.py`  (`generate_analysis` collaborator wrapper)
  - `src/models/telemetry.py`  (record types)

Conventions of the embedding:
  - JSON-like Python values are a tagged-variant tree `Json`.
  - Python timestamps (`datetime`) are rationals counting seconds since the
    epoch; `timedelta(hours=1)` is `3600`.
  - Wall-clock reads (`datetime.now()`) become an explicit `now : Time`
    parameter threaded to each call.
  - Code that can raise is written in the `Except PyErr` monad; a Python
    `try/except` is a `match` on that value.
  - The external LLM collaborator (`ollama_client.generate`) is an oracle
    parameter `llm : String → Except String String`; `.error e` models a call
    that raises with message `e` (timeout, error response, missing response
    key).
-/

set_option maxHeartbeats 1000000

namespace AILogs

/-- Timestamps and durations: seconds since the epoch, as exact rationals. -/
abbrev Time := ℚ

/-- Kinds of Python exception observed by the embedded code. -/
inductive PyErr where
  | attributeError
  | typeError
  | valueError
  | nameError
  | keyError
  deriving Repr, DecidableEq

/-- A JSON-like Python value (dict / list / str / number / bool / None), the
tagged-variant tree the OTLP payload traversal walks. -/
inductive Json where
  | null : Json
  | bool (b : Bool) : Json
  | num (q : ℚ) : Json
  | str (s : String) : Json
  | arr (elems : List Json) : Json
  | obj (fields : List (String × Json)) : Json
  deriving Repr

mutual

/-- Structural equality of `Json` values (Python `==` on the corresponding
values). -/
def Json.beq : Json → Json → Bool
  | .null, .null => true
  | .bool a, .bool b => a == b
  | .num a, .num b => a == b
  | .str a, .str b => a == b
  | .arr xs, .arr ys => Json.beqList xs ys
  | .obj xs, .obj ys => Json.beqFields xs ys
  | _, _ => false

def Json.beqList : List Json → List Json → Bool
  | [], [] => true
  | x :: xs, y :: ys => Json.beq x y && Json.beqList xs ys
  | _, _ => false

def Json.beqFields : List (String × Json) → List (String × Json) → Bool
  | [], [] => true
  | (k, v) :: xs, (l, w) :: ys => k == l && Json.beq v w && Json.beqFields xs ys
  | _, _ => false

end

/-- Python truthiness (`if x:`): `None`, `False`, `0`, `""`, `[]`, `{}` are
falsy, everything else truthy. -/
def Json.pyTruthy : Json → Bool
  | .null => false
  | .bool b => b
  | .num q => q != 0
  | .str s => s != ""
  | .arr elems => !elems.isEmpty
  | .obj fields => !fields.isEmpty

/-- Python `x.get(key, default)`: dicts look the key up (first binding; dict
keys are unique), anything without a `.get` attribute raises
`AttributeError`. -/
def Json.pyGetD : Json → String → Json → Except PyErr Json
  | .obj fields, key, dflt =>
      match fields.lookup key with
      | some v => .ok v
      | none => .ok dflt
  | _, _, _ => .error .attributeError

/-- Python `x.get(key)` — default `None`. -/
def Json.pyGet (j : Json) (key : String) : Except PyErr Json :=
  j.pyGetD key Json.null

/-- Python `for x in v:` — lists iterate their elements, dicts their keys,
strings their one-character substrings; other values raise `TypeError`. -/
def Json.pyIter : Json → Except PyErr (List Json)
  | .arr elems => .ok elems
  | .obj fields => .ok (fields.map fun kv => Json.str kv.1)
  | .str s => .ok (s.toList.map fun c => Json.str (String.singleton c))
  | _ => .error .typeError

mutual

/-- Python `repr` of a JSON-derived value, as used inside containers by
`str(...)`.  String escaping inside quotes and the exact rendering of
non-integral floats are approximated (no keyword of the analyzer is numeric
or quoted, so no theorem depends on them). -/
def Json.pyRepr : Json → String
  | .null => "None"
  | .bool true => "True"
  | .bool false => "False"
  | .num q => if q.den == 1 then toString q.num else toString q
  | .str s => "\x27" ++ s ++ "\x27"
  | .arr elems => "[" ++ Json.pyReprList elems ++ "]"
  | .obj fields => "\x7b" ++ Json.pyReprFields fields ++ "\x7d"

def Json.pyReprList : List Json → String
  | [] => ""
  | [x] => Json.pyRepr x
  | x :: xs => Json.pyRepr x ++ ", " ++ Json.pyReprList xs

def Json.pyReprFields : List (String × Json) → String
  | [] => ""
  | [(k, v)] => "\x27" ++ k ++ "\x27: " ++ Json.pyRepr v
  | (k, v) :: xs => "\x27" ++ k ++ "\x27: " ++ Json.pyRepr v ++ ", " ++ Json.pyReprFields xs

end

/-- Python `str(x)`: like `repr` except that a top-level string is returned
unquoted. -/
def Json.pyStr : Json → String
  | .str s => s
  | j => j.pyRepr

/-- Numeric value of one decimal digit list, `none` if any character is not a
digit or the list is empty. -/
def decDigits (cs : List Char) : Option ℕ :=
  match cs with
  | [] => none
  | _ =>
      cs.foldl
        (fun acc c =>
          match acc with
          | none => none
          | some n => if c.isDigit then some (n * 10 + (c.toNat - 48)) else none)
        (some 0)

/-- Python `int(s)` on a string: optional sign followed by decimal digits,
`ValueError` otherwise.  (Surrounding whitespace and digit-group underscores,
which CPython also accepts, are not modelled; no payload in this development
uses them.) -/
def pyIntOfString (s : String) : Except PyErr Int :=
  match s.toList with
  | '-' :: rest =>
      match decDigits rest with
      | some n => .ok (-(n : Int))
      | none => .error .valueError
  | '+' :: rest =>
      match decDigits rest with
      | some n => .ok (n : Int)
      | none => .error .valueError
  | cs =>
      match decDigits cs with
      | some n => .ok (n : Int)
      | none => .error .valueError

/-- Truncation of a rational toward zero, as Python `int(float)`. -/
def ratTrunc (q : ℚ) : Int :=
  if q < 0 then -((-q).floor) else q.floor

/-- Python `int(x)` on a JSON-derived value: strings are parsed, numbers
truncated toward zero, booleans are 0/1; `None`, lists and dicts raise
`TypeError`. -/
def pyInt : Json → Except PyErr Int
  | .str s => pyIntOfString s
  | .num q => .ok (ratTrunc q)
  | .bool b => .ok (if b then 1 else 0)
  | _ => .error .typeError

end AILogs

namespace AILogs

/-! ## Record types (`src/models/telemetry.py`)

Fields not inspected by any analyzed code path (`attributes`, `resource`,
`events`) are stored as the raw `Json` the decoder passes in; the pydantic
coercion/validation of those unread fields is not modelled.  String-typed
fields that the analyzer does read are required to be JSON strings: a payload
carrying another type there is collapsed to a decode error at the access
site, where the real code would surface it as a pydantic validation error at
record construction — the same caller-visible outcome under the decoder's
`except` handlers. -/

structure OTLPLog where
  timestamp : Time
  body : Json
  attributes : Json
  resource : Json
  service_name : String
  deriving Repr

structure OTLPSpan where
  trace_id : String
  span_id : String
  parent_span_id : Option String
  name : String
  start_time : Time
  end_time : Time
  attributes : Json
  events : Json
  service_name : String
  status_code : String
  status_message : Option String
  deriving Repr

structure OTLPMetric where
  name : String
  value : ℚ
  timestamp : Time
  attributes : Json
  unit : String
  deriving Repr

/-- Coercion of a JSON value to the pydantic `str` fields the analyzer reads:
only a JSON string is accepted (see the note above). -/
def asStrField : Json → Except PyErr String
  | .str s => .ok s
  | _ => .error .typeError

/-- Coercion to pydantic `float` (`OTLPMetric.value`): numbers pass through,
booleans count as 0/1; other types are collapsed to a validation error. -/
def pyFloatQ : Json → Except PyErr ℚ
  | .num q => .ok q
  | .bool b => .ok (if b then 1 else 0)
  | _ => .error .typeError

/-! ## OTLP decoder (`src/app/services/otel_receiver.py`) -/

/-- `OTelReceiver._parse_timestamp` (lines 163–171): a truthy value is
converted with `int(...) / 1_000_000_000` (true division — fractional seconds
preserved); a falsy value, or one whose conversion raises
`ValueError`/`TypeError`, yields the decode-time wall clock `now`. -/
def parse_timestamp (now : Time) (nano_timestamp : Json) : Time :=
  if nano_timestamp.pyTruthy then
    match pyInt nano_timestamp with
    | .ok n => (n : ℚ) / 1000000000
    | .error _ => now
  else now

/-- `OTelReceiver._parse_log_body` (lines 173–186): a truthy
`body.stringValue` is wrapped as `{"message": ...}`; otherwise the raw body
object passes through; if the body accesses raise (body not a dict), the
fallback is `{"raw": str(record)}`. -/
def parse_log_body (record : Json) : Json :=
  match (do
      let b ← record.pyGetD "body" (Json.obj [])
      let s ← b.pyGet "stringValue"
      pure (b, s) : Except PyErr (Json × Json)) with
  | .ok (b, s) =>
      if s.pyTruthy then Json.obj [("message", s)] else b
  | .error _ => Json.obj [("raw", Json.str record.pyStr)]

/-- Loop body of `_extract_service_name`. -/
def extract_service_name.loop : List Json → Except PyErr String
  | [] => .ok "unknown"
  | attr :: rest => do
      let k ← attr.pyGet "key"
      match k with
      | .str s =>
          if s = "service.name" then do
            let v ← attr.pyGetD "value" (Json.obj [])
            let sv ← v.pyGetD "stringValue" (Json.str "unknown")
            asStrField sv
          else extract_service_name.loop rest
      | _ => extract_service_name.loop rest

/-- `OTelReceiver._extract_service_name` (lines 188–192): scan the resource
attribute list for the key literally equal to `"service.name"`. -/
def extract_service_name (attributes : Json) : Except PyErr String := do
  let items ← attributes.pyIter
  extract_service_name.loop items

/-- One iteration of the `logRecords` loop of `_parse_logs_data` (lines
65–73): build one `OTLPLog` from a record. -/
def parseLogRecord (now : Time) (resource : Json) (service_name : String)
    (record : Json) : Except PyErr OTLPLog := do
  let tsJ ← record.pyGet "timeUnixNano"
  let body := parse_log_body record
  let attrs ← record.pyGetD "attributes" (Json.arr [])
  pure { timestamp := parse_timestamp now tsJ
         body := body
         attributes := attrs
         resource := resource
         service_name := service_name }

/-- The body of `_parse_logs_data`'s `try:` block (lines 55–76): the
three-level resource → scope → record traversal, accumulating into one list;
any raise aborts the whole traversal. -/
def parseLogsCore (now : Time) (body : Json) : Except PyErr (List OTLPLog) := do
  let rls ← (← body.pyGetD "resourceLogs" (Json.arr [])).pyIter
  rls.foldlM
    (fun logs resource_log => do
      let resource ← (← resource_log.pyGetD "resource" (Json.obj [])).pyGetD
          "attributes" (Json.obj [])
      let service_name ← extract_service_name resource
      let sls ← (← resource_log.pyGetD "scopeLogs" (Json.arr [])).pyIter
      sls.foldlM
        (fun logs2 scope_log => do
          let lrs ← (← scope_log.pyGetD "logRecords" (Json.arr [])).pyIter
          lrs.foldlM
            (fun logs3 record => do
              let log ← parseLogRecord now resource service_name record
              pure (logs3 ++ [log]))
            logs2)
        logs)
    []

/-- `OTelReceiver._parse_logs_data` (lines 53–80): the whole traversal runs
under one `try:`; any exception is caught and the empty list returned — the
function never raises for its caller. -/
def parse_logs_data (now : Time) (body : Json) : List OTLPLog :=
  match parseLogsCore now body with
  | .ok logs => logs
  | .error _ => []

/-- One iteration of the `spans` loop of `_parse_traces_data` (lines
94–108). -/
def parseSpanRecord (now : Time) (service_name : String) (span_data : Json) :
    Except PyErr OTLPSpan := do
  let tid ← asStrField (← span_data.pyGetD "traceId" (Json.str ""))
  let sid ← asStrField (← span_data.pyGetD "spanId" (Json.str ""))
  let pidJ ← span_data.pyGet "parentSpanId"
  let pid ← (match pidJ with
    | .null => pure none
    | .str s => pure (some s)
    | _ => .error .typeError)
  let nm ← asStrField (← span_data.pyGetD "name" (Json.str "unknown"))
  let stJ ← span_data.pyGet "startTimeUnixNano"
  let etJ ← span_data.pyGet "endTimeUnixNano"
  let attrs ← span_data.pyGetD "attributes" (Json.arr [])
  let events ← span_data.pyGetD "events" (Json.arr [])
  let code ← asStrField (← (← span_data.pyGetD "status" (Json.obj [])).pyGetD
      "code" (Json.str "OK"))
  let msgJ ← (← span_data.pyGetD "status" (Json.obj [])).pyGet "message"
  let msg ← (match msgJ with
    | .null => pure none
    | .str s => pure (some s)
    | _ => .error .typeError)
  pure { trace_id := tid
         span_id := sid
         parent_span_id := pid
         name := nm
         start_time := parse_timestamp now stJ
         end_time := parse_timestamp now etJ
         attributes := attrs
         events := events
         service_name := service_name
         status_code := code
         status_message := msg }

/-- The body of `_parse_traces_data`'s `try:` block (lines 84–111). -/
def parseTracesCore (now : Time) (body : Json) : Except PyErr (List OTLPSpan) := do
  let rss ← (← body.pyGetD "resourceSpans" (Json.arr [])).pyIter
  rss.foldlM
    (fun spans resource_span => do
      let resource ← (← resource_span.pyGetD "resource" (Json.obj [])).pyGetD
          "attributes" (Json.obj [])
      let service_name ← extract_service_name resource
      let sss ← (← resource_span.pyGetD "scopeSpans" (Json.arr [])).pyIter
      sss.foldlM
        (fun spans2 scope_span => do
          let srs ← (← scope_span.pyGetD "spans" (Json.arr [])).pyIter
          srs.foldlM
            (fun spans3 span_data => do
              let span ← parseSpanRecord now service_name span_data
              pure (spans3 ++ [span]))
            spans2)
        spans)
    []

/-- `OTelReceiver._parse_traces_data` (lines 82–115): one `try:` around the
whole traversal; any exception yields the empty list. -/
def parse_traces_data (now : Time) (body : Json) : List OTLPSpan :=
  match parseTracesCore now body with
  | .ok spans => spans
  | .error _ => []

/-- The body of `_parse_single_metric`'s `try:` block (lines 139–157): only
the `"gauge"` representation is handled, and the `for point in data_points:`
loop `return`s on its FIRST iteration — at most one `OTLPMetric` per metric
definition.  A falsy `gauge` value (absent key, empty dict) and an empty
`dataPoints` list fall through to `return None`. -/
def parseSingleMetricCore (now : Time) (metric_data : Json) :
    Except PyErr (Option OTLPMetric) := do
  let nm ← asStrField (← metric_data.pyGetD "name" (Json.str ""))
  let u ← asStrField (← metric_data.pyGetD "unit" (Json.str ""))
  let gauge ← metric_data.pyGetD "gauge" (Json.obj [])
  if gauge.pyTruthy then do
    let dps ← (← gauge.pyGetD "dataPoints" (Json.arr [])).pyIter
    match dps with
    | [] => pure none
    | point :: _ => do
        let v ← pyFloatQ (← point.pyGetD "asDouble" (Json.num 0))
        let tsJ ← point.pyGet "timeUnixNano"
        let attrs ← point.pyGetD "attributes" (Json.arr [])
        pure (some { name := nm
                     value := v
                     timestamp := parse_timestamp now tsJ
                     attributes := attrs
                     unit := u })
  else
    pure none

/-- `OTelReceiver._parse_single_metric` (lines 138–161): its own
`try:`/`except` returns `None` on any raise, so a malformed metric definition
is dropped individually. -/
def parse_single_metric (now : Time) (metric_data : Json) : Option OTLPMetric :=
  match parseSingleMetricCore now metric_data with
  | .ok m => m
  | .error _ => none

/-- The body of `_parse_metrics_data`'s `try:` block (lines 119–132); the
innermost loop appends `_parse_single_metric`'s result when it is truthy
(a model instance is always truthy), i.e. a `filterMap`. -/
def parseMetricsCore (now : Time) (body : Json) : Except PyErr (List OTLPMetric) := do
  let rms ← (← body.pyGetD "resourceMetrics" (Json.arr [])).pyIter
  rms.foldlM
    (fun metrics resource_metric => do
      let sms ← (← resource_metric.pyGetD "scopeMetrics" (Json.arr [])).pyIter
      sms.foldlM
        (fun metrics2 scope_metric => do
          let mrs ← (← scope_metric.pyGetD "metrics" (Json.arr [])).pyIter
          pure (metrics2 ++ mrs.filterMap (parse_single_metric now)))
        metrics)
    []

/-- `OTelReceiver._parse_metrics_data` (lines 117–136): one `try:` around the
traversal; any exception yields the empty list. -/
def parse_metrics_data (now : Time) (body : Json) : List OTLPMetric :=
  match parseMetricsCore now body with
  | .ok metrics => metrics
  | .error _ => []

/-- `OTelReceiver._process_otlp_request` (lines 30–51): the request body is
parsed as JSON (`.error` = `request.json()` raised); on success the matching
decoder runs and the response is the dict
`{"status": "success", "processed": len(processed_data)}`.  Any exception is
re-raised as an HTTP 400 with the exception text; since the decoders catch
internally, only the body parse can produce that.  (`_process_data_async`,
lines 194–204, only logs — it is a no-op on the result.) -/
def process_otlp_request (now : Time) (data_type : String)
    (request_json : Except String Json) : Except (ℕ × String) Json :=
  match request_json with
  | .error e => .error (400, e)
  | .ok body =>
      let processed : ℕ :=
        if data_type = "logs" then (parse_logs_data now body).length
        else if data_type = "traces" then (parse_traces_data now body).length
        else if data_type = "metrics" then (parse_metrics_data now body).length
        else 0
      .ok (Json.obj [("status", Json.str "success"),
                     ("processed", Json.num (processed : ℚ))])

end AILogs

namespace AILogs

/-! ## Incident analyzer (`src/app/services/incident_analyzer.py`)

Incidents are Python dicts with a fixed key set; they are modelled as a
structure.  The two keys added by enrichment (`ai_analysis`, `analyzed_at`)
are `Option` fields that are `none` while absent. -/

structure Incident where
  type : String
  service : String
  severity : String
  description : String
  metrics : List (String × ℚ)
  timestamp : Time
  ai_analysis : Option String := none
  analyzed_at : Option Time := none
  deriving Repr, DecidableEq

/-- Python `needle in hay` on strings: contiguous-substring test. -/
def pyContains (needle hay : String) : Bool :=
  decide (needle.toList <:+: hay.toList)

/-- `str(log.body).lower()` as used by `_analyze_service_logs` (line 135).
`String.toLower` lowercases ASCII; the analyzer's keywords are ASCII. -/
def logText (log : OTLPLog) : String :=
  log.body.pyStr.toLower

/-- Error keywords of `_analyze_service_logs` (line 131). -/
def errorKeywords : List String :=
  ["error", "exception", "failed", "timeout", "crash", "panic"]

/-- Warning keywords of `_analyze_service_logs` (line 132). -/
def warningKeywords : List String :=
  ["warning", "slow", "delay", "retry", "fallback"]

/-- `IncidentAnalyzer._analyze_service_logs` (lines 121–193): count the
records matching error keywords and warning keywords, and when the group is
non-empty fire at most one incident, the error-rate branches taking priority
over the warning branch. -/
def analyze_service_logs (now : Time) (service : String) (logs : List OTLPLog) :
    List Incident :=
  let error_count := logs.countP fun log =>
    errorKeywords.any fun kw => pyContains kw (logText log)
  let warning_count := logs.countP fun log =>
    warningKeywords.any fun kw => pyContains kw (logText log)
  let total_logs := logs.length
  if 0 < total_logs then
    let error_rate : ℚ := (error_count : ℚ) / (total_logs : ℚ)
    let warning_rate : ℚ := (warning_count : ℚ) / (total_logs : ℚ)
    if error_rate > 1/10 then
      [{ type := "log_errors"
         service := service
         severity := "critical"
         description := "Высокий уровень ошибок в сервисе " ++ service
         metrics := [("error_count", (error_count : ℚ)),
                     ("warning_count", (warning_count : ℚ)),
                     ("total_logs", (total_logs : ℚ)),
                     ("error_rate", error_rate)]
         timestamp := now }]
    else if error_rate > 1/20 then
      [{ type := "log_errors"
         service := service
         severity := "high"
         description := "Повышенный уровень ошибок в сервисе " ++ service
         metrics := [("error_count", (error_count : ℚ)),
                     ("warning_count", (warning_count : ℚ)),
                     ("total_logs", (total_logs : ℚ)),
                     ("error_rate", error_rate)]
         timestamp := now }]
    else if warning_rate > 1/5 then
      [{ type := "log_warnings"
         service := service
         severity := "medium"
         description := "Много предупреждений в сервисе " ++ service
         metrics := [("error_count", (error_count : ℚ)),
                     ("warning_count", (warning_count : ℚ)),
                     ("total_logs", (total_logs : ℚ)),
                     ("warning_rate", warning_rate)]
         timestamp := now }]
    else []
  else []

/-- Insertion-ordered grouping dict (`logs_by_service` / `spans_by_service` /
`metrics_by_name` pattern): append to the existing key's list, or add a new
key at the end. -/
def groupUpsert {α : Type} (acc : List (String × List α)) (k : String) (v : α) :
    List (String × List α) :=
  if acc.any fun p => decide (p.1 = k) then
    acc.map fun p => if p.1 = k then (p.1, p.2 ++ [v]) else p
  else acc ++ [(k, [v])]

/-- `IncidentAnalyzer._analyze_logs_for_incidents` (lines 102–119): group by
`service_name`, analyze each group, concatenate. -/
def analyze_logs_for_incidents (now : Time) (logs : List OTLPLog) : List Incident :=
  let logs_by_service :=
    logs.foldl (fun acc log => groupUpsert acc log.service_name log) []
  logs_by_service.foldl
    (fun incidents p => incidents ++ analyze_service_logs now p.1 p.2) []

/-- `np.percentile(values, p)` with the default linear interpolation:
`pos = p/100 * (n-1)`, linear between the two neighbouring order
statistics. -/
def percentileLinear (values : List ℚ) (p : ℚ) : ℚ :=
  let sorted := values.insertionSort (· ≤ ·)
  match sorted with
  | [] => 0
  | _ =>
      let n := sorted.length
      let pos : ℚ := p / 100 * ((n : ℚ) - 1)
      let f : ℕ := pos.floor.toNat
      let lo := sorted.getD f 0
      let hi := sorted.getD (f + 1) lo
      lo + (pos - (f : ℚ)) * (hi - lo)

/-- `np.mean` of a non-empty list (callers guard emptiness). -/
def listMean (values : List ℚ) : ℚ :=
  values.sum / (values.length : ℚ)

/-- `np.max` of a list (0 for the unreachable empty case). -/
def listMax : List ℚ → ℚ
  | [] => 0
  | v :: rest => rest.foldl max v

/-- `IncidentAnalyzer._analyze_service_traces` (lines 217–274): per-span
duration in milliseconds, then the `high_latency` (p95 > 1000 ms) and
`trace_errors` (error rate > 0.10) branches — independent, both may fire. -/
def analyze_service_traces (now : Time) (service : String) (spans : List OTLPSpan) :
    List Incident :=
  if spans.isEmpty then []
  else
    let durations := spans.map fun span => (span.end_time - span.start_time) * 1000
    let error_count := spans.countP fun span => span.status_code ≠ "OK"
    let total_spans := spans.length
    if durations.isEmpty then []
    else
      let avg_duration := listMean durations
      let p95_duration := percentileLinear durations 95
      let max_duration := listMax durations
      let error_rate : ℚ :=
        if 0 < total_spans then (error_count : ℚ) / (total_spans : ℚ) else 0
      (if p95_duration > 1000 then
        [{ type := "high_latency"
           service := service
           severity := "high"
           description := "Высокая задержка в сервисе " ++ service
           metrics := [("p95_duration_ms", p95_duration),
                       ("avg_duration_ms", avg_duration),
                       ("max_duration_ms", max_duration),
                       ("error_rate", error_rate)]
           timestamp := now }]
      else []) ++
      (if error_rate > 1/10 then
        [{ type := "trace_errors"
           service := service
           severity := "critical"
           description := "Много ошибок в трейсах сервиса " ++ service
           metrics := [("error_count", (error_count : ℚ)),
                       ("total_spans", (total_spans : ℚ)),
                       ("error_rate", error_rate)]
           timestamp := now }]
      else [])

/-- `IncidentAnalyzer._analyze_traces_for_incidents` (lines 195–215). -/
def analyze_traces_for_incidents (now : Time) (spans : List OTLPSpan) : List Incident :=
  if spans.isEmpty then []
  else
    let spans_by_service :=
      spans.foldl (fun acc span => groupUpsert acc span.service_name span) []
    spans_by_service.foldl
      (fun incidents p => incidents ++ analyze_service_traces now p.1 p.2) []

/-- Python `f"{v:.1f}"`, approximated by rounding to one decimal (CPython
rounds the underlying binary float half-to-even; the difference is
unobservable by any theorem below — the function only feeds incident
description text on an unreachable code path). -/
def fmt1 (q : ℚ) : String :=
  let n : Int := round (q * 10)
  toString (n / 10) ++ "." ++ toString (n % 10).natAbs

/-- `metric.attributes.get('service', 'unknown')` (lines 321/335/349),
collapsed to `"unknown"` when the stored attributes are not a dict carrying a
string under `"service"` (only reachable on a dead code path, see
`metricGroupKey`). -/
def attrService (attrs : Json) : String :=
  match attrs with
  | .obj fields =>
      match fields.lookup "service" with
      | some (.str s) => s
      | _ => "unknown"
  | _ => "unknown"

/-- The grouping-key expression of `_analyze_metrics_for_anomalies`, line 283:
`key = f"{metric.name}_{json.dumps(metric.attributes, sort_keys=True)}"`.
The module `incident_analyzer.py` (imports: lines 1–12) never imports `json`,
so evaluating this f-string raises `NameError` on every execution. -/
def metricGroupKey (_metric : OTLPMetric) : Except PyErr String :=
  .error .nameError

/-- `IncidentAnalyzer._detect_metric_anomalies` (lines 302–359): rule branches
on the metric name; `current_value` is the last value, the baseline the mean
of all but the last (or the current value when only one exists).  Reachable
only if `metricGroupKey` succeeded, i.e. never. -/
def detect_metric_anomalies (now : Time) (_metric_key : String)
    (values : List ℚ) (_timestamps : List Time) (metric : OTLPMetric) :
    List Incident :=
  match values.getLast? with
  | none => []
  | some current_value =>
      let avg_value : ℚ :=
        if 1 < values.length then listMean values.dropLast else current_value
      let metric_name := metric.name
      if pyContains "cpu" metric_name.toLower then
        if current_value > 80 then
          [{ type := "high_cpu"
             service := attrService metric.attributes
             severity := "high"
             description := "Высокое использование CPU: " ++ fmt1 current_value ++ "%"
             metrics := [("current_value", current_value), ("avg_value", avg_value)]
             timestamp := now }]
        else []
      else if pyContains "memory" metric_name.toLower then
        if current_value > 85 then
          [{ type := "high_memory"
             service := attrService metric.attributes
             severity := "high"
             description := "Высокое использование памяти: " ++ fmt1 current_value ++ "%"
             metrics := [("current_value", current_value), ("avg_value", avg_value)]
             timestamp := now }]
        else []
      else if pyContains "response_time" metric_name.toLower ||
              pyContains "duration" metric_name.toLower then
        if current_value > avg_value * 2 then
          [{ type := "response_time_spike"
             service := attrService metric.attributes
             severity := "medium"
             description := "Скачок времени ответа: " ++ fmt1 current_value ++
               "ms (среднее: " ++ fmt1 avg_value ++ "ms)"
             metrics := [("current_value", current_value), ("avg_value", avg_value)]
             timestamp := now }]
        else []
      else []

/-- `IncidentAnalyzer._analyze_metrics_for_anomalies` (lines 276–300): group
metrics by the key of line 283, skip groups with fewer than 5 points, run the
detector per group.  The first loop iteration evaluates the key expression,
which raises `NameError` (see `metricGroupKey`); with no metrics the loop body
never runs, the grouping dict stays empty and the empty list is returned.
This function has no `try:` of its own — the error propagates to the
caller. -/
def analyze_metrics_for_anomalies (now : Time) (metrics : List OTLPMetric) :
    Except PyErr (List Incident) := do
  let metrics_by_name ←
    metrics.foldlM
      (fun acc metric => do
        let key ← metricGroupKey metric
        pure (groupUpsert acc key metric))
      ([] : List (String × List OTLPMetric))
  pure (metrics_by_name.foldl
    (fun incidents p =>
      if p.2.length < 5 then incidents
      else
        match p.2 with
        | [] => incidents
        | m :: _ =>
            incidents ++
              detect_metric_anomalies now p.1 (p.2.map OTLPMetric.value)
                (p.2.map OTLPMetric.timestamp) m)
    [])

end AILogs

namespace AILogs

/-- Rendering of a metric evidence value inside the prompt (Python
`f"- {key}: {value}"`); integral values print without a fraction. -/
def numStr (q : ℚ) : String :=
  if q.den == 1 then toString q.num else toString q

/-- `IncidentAnalyzer._create_incident_analysis_prompt` (lines 387–415):
deterministic prompt from the incident's type, service, description and
evidence metrics. -/
def create_incident_analysis_prompt (incident : Incident) : String :=
  "Проанализируй следующий инцидент в микросервисной системе:\n\nТип инцидента: "
    ++ incident.type
    ++ "\nСервис: " ++ incident.service
    ++ "\nОписание: " ++ incident.description
    ++ "\n\nМетрики:\n"
    ++ incident.metrics.foldl
        (fun acc kv => acc ++ "- " ++ kv.1 ++ ": " ++ numStr kv.2 ++ "\n") ""
    ++ "\nПроанализируй этот инцидент и предоставь:\n1. КОРЕНЬ ПРОБЛЕМЫ: основная вероятная причина\n2. СИМПТОМЫ: наблюдаемые проявления проблемы  \n3. ВЛИЯНИЕ: на что влияет этот инцидент\n4. РЕКОМЕНДАЦИИ: конкретные шаги по устранению\n\nБудь технически точным и предлагай практические решения."

/-- `OllamaTrainer.generate_analysis` (`ollama_trainer.py` lines 311–328): the
collaborator call runs under its own `try:`; ANY exception — timeout, error
response, missing `response` key — is caught HERE and an error-message STRING
is returned instead.  The function never raises to its caller. -/
def generate_analysis (llm : String → Except String String) (prompt : String) :
    String :=
  match llm prompt with
  | .ok response => response
  | .error e => "Ошибка при анализе: " ++ e

/-- `IncidentAnalyzer._enrich_incidents_with_ai` (lines 361–385): for each
incident, build the prompt, call `generate_analysis`, and append a copy with
`ai_analysis` and `analyzed_at` set.  The `except` branch (append the
original unchanged) only fires if the loop body raises — and no statement of
the body can: `generate_analysis` catches collaborator failures internally
and returns an error string, so a failed LLM call still produces an enriched
copy carrying that string. -/
def enrich_incidents_with_ai (llm : String → Except String String) (now : Time)
    (incidents : List Incident) : List Incident :=
  incidents.map fun incident =>
    { incident with
      ai_analysis := some (generate_analysis llm (create_incident_analysis_prompt incident))
      analyzed_at := some now }

/-- `incident.get('severity', 'low') in ['medium', 'high', 'critical']`
(lines 91–92). -/
def sevSignificant (s : String) : Bool :=
  s == "medium" || s == "high" || s == "critical"

/-- `IncidentAnalyzer.analyze_realtime_data` (lines 69–100), acting on the
registry state `active_incidents`: run the three detection stages, enrich,
filter to significant severities and extend the registry; the surrounding
`try:` turns ANY stage exception into the return value `[]`, discarding every
incident already detected in the same call and leaving the registry
untouched.  Returns `(returned incidents, new registry state)`. -/
def analyze_realtime_data (llm : String → Except String String) (now : Time)
    (active_incidents : List Incident)
    (logs : List OTLPLog) (spans : List OTLPSpan) (metrics : List OTLPMetric) :
    List Incident × List Incident :=
  match (do
      let log_incidents := analyze_logs_for_incidents now logs
      let trace_incidents := analyze_traces_for_incidents now spans
      let metric_incidents ← analyze_metrics_for_anomalies now metrics
      let incidents := log_incidents ++ trace_incidents ++ metric_incidents
      let enriched := enrich_incidents_with_ai llm now incidents
      pure (enriched.filter fun inc => sevSignificant inc.severity) :
        Except PyErr (List Incident)) with
  | .ok significant => (significant, active_incidents ++ significant)
  | .error _ => ([], active_incidents)

/-- The admission step of `analyze_realtime_data` (lines 91–93) in isolation:
extend the registry with the candidates whose severity is significant. -/
def admit_significant (active_incidents candidates : List Incident) :
    List Incident :=
  active_incidents ++ candidates.filter fun inc => sevSignificant inc.severity

/-- `IncidentAnalyzer.get_active_incidents` (lines 433–442): keep only — and
return — the incidents younger than one hour; the filtered list REPLACES the
stored collection (prune on read).  Returns `(result, new registry state)`. -/
def get_active_incidents (active_incidents : List Incident) (now : Time) :
    List Incident × List Incident :=
  let kept := active_incidents.filter fun inc => decide (inc.timestamp > now - 3600)
  (kept, kept)

/-- `by_severity[severity] += 1` (line 465): increment an existing key, raise
`KeyError` when the key is absent. -/
def bumpKey (l : List (String × ℕ)) (k : String) : Option (List (String × ℕ)) :=
  if l.any fun p => decide (p.1 = k) then
    some (l.map fun p => if p.1 = k then (p.1, p.2 + 1) else p)
  else none

/-- Lines 461–463: initialize the type's count to 0 when absent, then
increment. -/
def bumpOrInitKey (l : List (String × ℕ)) (k : String) : List (String × ℕ) :=
  if l.any fun p => decide (p.1 = k) then
    l.map fun p => if p.1 = k then (p.1, p.2 + 1) else p
  else l ++ [(k, 1)]

/-- Reading one counter out of a Python dict modelled as an association
list (`d[k]` would raise for `none`; `k in d` is `isSome`). -/
def getCount : List (String × ℕ) → String → Option ℕ
  | [], _ => none
  | (a, b) :: rest, k => if k = a then some b else getCount rest k

/-- The fixed initial severity counters of `get_incident_statistics`
(lines 450–455). -/
def sevInit : List (String × ℕ) :=
  [("critical", 0), ("high", 0), ("medium", 0), ("low", 0)]

/-- The counting loop of `get_incident_statistics` (lines 457–465). -/
def statsLoop : List Incident → List (String × ℕ) → List (String × ℕ) →
    Except PyErr (List (String × ℕ) × List (String × ℕ))
  | [], by_type, by_severity => .ok (by_type, by_severity)
  | incident :: rest, by_type, by_severity =>
      let by_type2 := bumpOrInitKey by_type incident.type
      match bumpKey by_severity incident.severity with
      | some by_severity2 => statsLoop rest by_type2 by_severity2
      | none => .error .keyError

/-- The dict returned by `get_incident_statistics` (lines 467–472). -/
structure IncidentStats where
  total_active_incidents : ℕ
  by_type : List (String × ℕ)
  by_severity : List (String × ℕ)
  last_updated : Time
  deriving Repr, DecidableEq

/-- `IncidentAnalyzer.get_incident_statistics` (lines 444–472): derived from
`get_active_incidents` (whose prune side effect it therefore also performs);
counts by type (keys as encountered) and by severity over the fixed four-key
counter.  Returns `(statistics, new registry state)`. -/
def get_incident_statistics (active_incidents : List Incident) (now : Time) :
    Except PyErr IncidentStats × List Incident :=
  match statsLoop (get_active_incidents active_incidents now).1 [] sevInit with
  | .ok (by_type, by_severity) =>
      (.ok { total_active_incidents := (get_active_incidents active_incidents now).1.length
             by_type := by_type
             by_severity := by_severity
             last_updated := now }, (get_active_incidents active_incidents now).2)
  | .error e => (.error e, (get_active_incidents active_incidents now).2)

/-- Registry states reachable from the initial empty collection
(`self.active_incidents = []`, line 20) through the operations that write it:
the analysis-and-admission pipeline, the bare admission step over arbitrary
enriched candidates, and the pruning reads (`get_active_incidents`, also
performed by `get_incident_statistics`). -/
inductive Reachable : List Incident → Prop
  | init : Reachable []
  | analyze (llm : String → Except String String) (now : Time)
      (logs : List OTLPLog) (spans : List OTLPSpan) (metrics : List OTLPMetric)
      (st : List Incident) :
      Reachable st →
      Reachable (analyze_realtime_data llm now st logs spans metrics).2
  | admitStep (st candidates : List Incident) :
      Reachable st → Reachable (admit_significant st candidates)
  | read (st : List Incident) (now : Time) :
      Reachable st → Reachable (get_active_incidents st now).2

end AILogs

namespace AILogs

/-! ## Concrete fixtures used by counterexamples and witnesses -/

/-- A resource attribute entry carrying `service.name = "api"`. -/
def svcAttr : Json :=
  Json.obj [("key", Json.str "service.name"),
            ("value", Json.obj [("stringValue", Json.str "api")])]

/-- A logs export payload with one resource group, one scope group and the
given records. -/
def mkLogsPayload (recs : List Json) : Json :=
  Json.obj [("resourceLogs", Json.arr [Json.obj
    [("resource", Json.obj [("attributes", Json.arr [svcAttr])]),
     ("scopeLogs", Json.arr [Json.obj [("logRecords", Json.arr recs)]])]])]

/-- A metrics export payload with one resource group, one scope group and the
given metric definitions. -/
def mkMetricsPayload (recs : List Json) : Json :=
  Json.obj [("resourceMetrics", Json.arr [Json.obj
    [("scopeMetrics", Json.arr [Json.obj [("metrics", Json.arr recs)]])]])]

/-- A well-formed log record: string body, parseable nanosecond timestamp. -/
def goodLogRecord : Json :=
  Json.obj [("timeUnixNano", Json.str "1000000000"),
            ("body", Json.obj [("stringValue", Json.str "hello")]),
            ("attributes", Json.arr [])]

/-- A gauge data point with the given `asDouble` value. -/
def mkDataPoint (v : ℚ) (ts : String) : Json :=
  Json.obj [("asDouble", Json.num v), ("timeUnixNano", Json.str ts),
            ("attributes", Json.arr [])]

/-- A decoded log whose body text contains the error keyword `"error"`. -/
def errLog : OTLPLog :=
  { timestamp := 0
    body := Json.obj [("message", Json.str "Error occurred")]
    attributes := Json.arr []
    resource := Json.obj []
    service_name := "api" }

/-- A decoded cpu gauge point with the given value. -/
def cpuMetric (v : ℚ) : OTLPMetric :=
  { name := "cpu_usage", value := v, timestamp := 0
    attributes := Json.obj [], unit := "" }

/-- Five points of the cpu series, last value 92. -/
def cpuMetrics5 : List OTLPMetric :=
  [cpuMetric 70, cpuMetric 71, cpuMetric 72, cpuMetric 73, cpuMetric 92]

/-- A significant candidate incident without enrichment fields. -/
def testIncident : Incident :=
  { type := "log_errors", service := "api", severity := "high"
    description := "d", metrics := [("error_rate", 1/5)], timestamp := 10 }

/-! ## C10 -/

/-- C10: whenever a detection stage raises — and the metric stage raises
`NameError` for every non-empty metric list, because line 283 references
`json.dumps` while the module never imports `json` — `analyze_realtime_data`
returns the empty list and leaves the registry unchanged, discarding the
incidents the log and trace stages of the same call already produced. -/
theorem c10_analysis_error_discards_all (llm : String → Except String String)
    (now : Time) (st : List Incident) (logs : List OTLPLog)
    (spans : List OTLPSpan) (metrics : List OTLPMetric) (h : metrics ≠ []) :
    analyze_realtime_data llm now st logs spans metrics = ([], st) := by
  cases metrics with
  | nil => exact absurd rfl h
  | cons m rest => rfl

/-- Witness for C10: a call carrying a log group that does fire an incident
and one metric still returns nothing and admits nothing. -/
theorem c10_analysis_error_discards_all_witness :
    ([cpuMetric 92] ≠ ([] : List OTLPMetric)) ∧
    analyze_realtime_data (fun _ => .ok "analysis") 0 [] [errLog] [] [cpuMetric 92] =
      ([], []) :=
  ⟨by simp, c10_analysis_error_discards_all _ _ _ _ _ _ (by simp)⟩

/-! ## C5 -/

/-- C5: the metric-anomaly stage never evaluates any group — on the failing
input (five cpu points, last value 92) it raises `NameError` at the grouping
key of line 283 (`json` is unbound in `incident_analyzer.py`), producing no
incident; the per-group detector of lines 302–359, called directly on that
group, would have produced exactly the one `high_cpu`/`high` incident with
`current_value = 92` that the claim describes. -/
theorem c5_metric_analysis_name_error :
    analyze_metrics_for_anomalies 0 cpuMetrics5 = .error .nameError ∧
    detect_metric_anomalies 0 "cpu_usage_key" [70, 71, 72, 73, 92] [0, 0, 0, 0, 0]
        (cpuMetric 70) =
      [{ type := "high_cpu", service := "unknown", severity := "high"
         description := "Высокое использование CPU: 92.0%"
         metrics := [("current_value", 92), ("avg_value", 143/2)]
         timestamp := 0 }] :=
  ⟨rfl, by with_unfolding_all rfl⟩

end AILogs

namespace AILogs

/-! ## C1 -/

/-- What enrichment actually does to each candidate, position by position:
the detection fields pass through unchanged, `analyzed_at` is always set, and
`ai_analysis` is always set — on a collaborator failure it carries the
error-message string produced inside `generate_analysis`. -/
def enrichSpec (llm : String → Except String String) (now : Time)
    (inp out : Incident) : Prop :=
  out.type = inp.type ∧ out.service = inp.service ∧ out.severity = inp.severity ∧
  out.description = inp.description ∧ out.metrics = inp.metrics ∧
  out.timestamp = inp.timestamp ∧ out.analyzed_at = some now ∧
  out.ai_analysis = some (generate_analysis llm (create_incident_analysis_prompt inp)) ∧
  (∀ e, llm (create_incident_analysis_prompt inp) = .error e →
      out.ai_analysis = some ("Ошибка при анализе: " ++ e)) ∧
  sevSignificant out.severity = sevSignificant inp.severity

/-- C1 counterexample: on a collaborator failure the enriched candidate is
NOT the input unchanged — `ai_analysis` is set to the error-message string
returned by `generate_analysis` and `analyzed_at` is set, because
`generate_analysis` catches the failure itself and the enrichment `except`
branch never runs. -/
theorem c1_counterexample :
    enrich_incidents_with_ai (fun _ => .error "timeout") 30 [testIncident] ≠
      [testIncident] ∧
    (enrich_incidents_with_ai (fun _ => .error "timeout") 30 [testIncident]).map
        Incident.ai_analysis = [some ("Ошибка при анализе: timeout")] ∧
    (enrich_incidents_with_ai (fun _ => .error "timeout") 30 [testIncident]).map
        Incident.analyzed_at = [some 30] := by
  refine ⟨?_, rfl, rfl⟩
  intro h
  have h2 := congrArg (fun l => l.map Incident.analyzed_at) h
  simp [enrich_incidents_with_ai, testIncident] at h2

/-- C1 (amended): enrichment maps each candidate independently in order, never
drops one, preserves every detection field (including the severity that
admission later checks), and always sets `analyzed_at` and `ai_analysis`; on a
collaborator failure `ai_analysis` holds the error-message string instead of
staying absent. -/
theorem c1_enrichment_amended (llm : String → Except String String) (now : Time)
    (incidents : List Incident) :
    (enrich_incidents_with_ai llm now incidents).length = incidents.length ∧
    List.Forall₂ (enrichSpec llm now) incidents
      (enrich_incidents_with_ai llm now incidents) := by
  refine ⟨by simp [enrich_incidents_with_ai], ?_⟩
  unfold enrich_incidents_with_ai
  rw [List.forall₂_map_right_iff]
  refine List.forall₂_same.mpr fun inc hin => ?_
  refine ⟨rfl, rfl, rfl, rfl, rfl, rfl, rfl, rfl, ?_, rfl⟩
  intro e he
  simp [generate_analysis, he]

/-- Witness for C1 (amended) at a failing collaborator and one candidate. -/
theorem c1_enrichment_amended_witness :
    List.Forall₂ (enrichSpec (fun _ => .error "timeout") 30) [testIncident]
      (enrich_incidents_with_ai (fun _ => .error "timeout") 30 [testIncident]) :=
  (c1_enrichment_amended (fun _ => .error "timeout") 30 [testIncident]).2

/-! ## C3 -/

/-- A metrics payload whose single gauge definition carries TWO data points
with values 1 and 2. -/
def gauge2Payload : Json :=
  mkMetricsPayload
    [Json.obj [("name", Json.str "m1"),
               ("gauge", Json.obj [("dataPoints",
                  Json.arr [mkDataPoint 1 "1000000000",
                            mkDataPoint 2 "1000000000"])])]]

/-- C3 counterexample: a gauge definition with two data points decodes to ONE
`MetricPoint` (the first point, value 1), not two — the decoder `return`s on
the first loop iteration. -/
theorem c3_counterexample :
    parse_metrics_data 0 gauge2Payload =
      [{ name := "m1", value := 1, timestamp := 1,
         attributes := Json.arr [], unit := "" }] ∧
    (parse_metrics_data 0 gauge2Payload).length = 1 := by
  constructor
  · with_unfolding_all rfl
  · with_unfolding_all rfl

/-- C3 (amended): a gauge metric definition with n ≥ 1 data points produces
exactly ONE `MetricPoint`, built from the FIRST data point's `asDouble`
(later points are ignored); a gauge with an empty point list and non-gauge
definitions (e.g. `sum`) produce zero points. -/
theorem c3_gauge_first_point_amended (now : Time) (nm u : String) (v : ℚ)
    (ts : String) (rest : List Json) :
    parse_single_metric now (Json.obj [("name", Json.str nm), ("unit", Json.str u),
        ("gauge", Json.obj [("dataPoints", Json.arr (mkDataPoint v ts :: rest))])]) =
      some { name := nm, value := v, timestamp := parse_timestamp now (Json.str ts),
             attributes := Json.arr [], unit := u } ∧
    parse_single_metric now (Json.obj [("name", Json.str nm), ("unit", Json.str u),
        ("gauge", Json.obj [("dataPoints", Json.arr [])])]) = none ∧
    ∀ sumBody : Json,
      parse_single_metric now (Json.obj [("name", Json.str nm), ("unit", Json.str u),
          ("sum", sumBody)]) = none := by
  refine ⟨rfl, rfl, fun sumBody => rfl⟩

/-! ## C6 -/

/-- A well-formed logs request payload with one good record. -/
def logsPayload1 : Json := mkLogsPayload [goodLogRecord]

/-- C6 counterexample: the success response for a parsed-as-object payload is
EXACTLY `{"status": "success", "processed": n}` — it carries no list of
admitted incidents (the ingestion path never invokes incident detection; its
`_process_data_async` only logs). -/
theorem c6_counterexample :
    process_otlp_request 0 "logs" (.ok logsPayload1) =
      .ok (Json.obj [("status", Json.str "success"), ("processed", Json.num 1)]) ∧
    (Json.obj [("status", Json.str "success"),
        ("processed", Json.num 1)]).pyGet "incidents" = .ok Json.null := by
  constructor
  · with_unfolding_all rfl
  · rfl

/-- C6 (amended): every request whose payload parses as JSON gets the
two-field success response `{"status", "processed"}` with the processed count
of the matching decoder, and no incident list; a request-level 400 error is
returned exactly when the body fails to parse as JSON. -/
theorem c6_response_amended (now : Time) (data_type : String) :
    (∀ body : Json, ∃ n : ℕ,
        process_otlp_request now data_type (.ok body) =
          .ok (Json.obj [("status", Json.str "success"),
                         ("processed", Json.num (n : ℚ))]) ∧
        (data_type = "logs" → n = (parse_logs_data now body).length) ∧
        (data_type = "traces" → n = (parse_traces_data now body).length) ∧
        (data_type = "metrics" → n = (parse_metrics_data now body).length)) ∧
    ∀ e : String, process_otlp_request now data_type (.error e) = .error (400, e) := by
  constructor
  · intro body
    refine ⟨if data_type = "logs" then (parse_logs_data now body).length
            else if data_type = "traces" then (parse_traces_data now body).length
            else if data_type = "metrics" then (parse_metrics_data now body).length
            else 0, rfl, ?_, ?_, ?_⟩ <;> intro h <;> simp [h]
  · intro e
    rfl

/-- Witness for C6 (amended) at the logs entry point on a concrete payload. -/
theorem c6_response_amended_witness :
    process_otlp_request 0 "logs" (.ok logsPayload1) =
      .ok (Json.obj [("status", Json.str "success"),
          ("processed", Json.num (((parse_logs_data 0 logsPayload1).length : ℕ) : ℚ))]) := by
  obtain ⟨n, hn, hl, -, -⟩ := (c6_response_amended 0 "logs").1 logsPayload1
  rw [hl rfl] at hn
  exact hn

end AILogs

namespace AILogs

/-! ## C4 -/

/-- `error_rate = error_count / total` of `_analyze_service_logs`, line 147. -/
def log_error_rate (logs : List OTLPLog) : ℚ :=
  ((logs.countP fun log => errorKeywords.any fun kw => pyContains kw (logText log)) : ℚ) /
    (logs.length : ℚ)

/-- `warning_rate = warning_count / total` of `_analyze_service_logs`,
line 148. -/
def log_warning_rate (logs : List OTLPLog) : ℚ :=
  ((logs.countP fun log => warningKeywords.any fun kw => pyContains kw (logText log)) : ℚ) /
    (logs.length : ℚ)

/-- C4: for a non-empty log group of one service the branches fire in strict
priority order — error rate above 0.10 gives exactly one critical
`log_errors` incident; otherwise error rate above 0.05 exactly one high
`log_errors`; otherwise warning rate above 0.20 exactly one medium
`log_warnings`; otherwise nothing.  At most one log-derived incident per
service per evaluation. -/
theorem c4_log_rule_priority (now : Time) (service : String)
    (logs : List OTLPLog) (h : logs ≠ []) :
    (log_error_rate logs > 1/10 →
      (analyze_service_logs now service logs).length = 1 ∧
      ∀ inc ∈ analyze_service_logs now service logs,
        inc.type = "log_errors" ∧ inc.severity = "critical") ∧
    (log_error_rate logs ≤ 1/10 → log_error_rate logs > 1/20 →
      (analyze_service_logs now service logs).length = 1 ∧
      ∀ inc ∈ analyze_service_logs now service logs,
        inc.type = "log_errors" ∧ inc.severity = "high") ∧
    (log_error_rate logs ≤ 1/10 → log_error_rate logs ≤ 1/20 →
      log_warning_rate logs > 1/5 →
      (analyze_service_logs now service logs).length = 1 ∧
      ∀ inc ∈ analyze_service_logs now service logs,
        inc.type = "log_warnings" ∧ inc.severity = "medium") ∧
    (log_error_rate logs ≤ 1/10 → log_error_rate logs ≤ 1/20 →
      log_warning_rate logs ≤ 1/5 →
      analyze_service_logs now service logs = []) := by
  have hpos : 0 < logs.length := List.length_pos.mpr h
  unfold log_error_rate log_warning_rate
  unfold analyze_service_logs
  simp only [if_pos hpos]
  refine ⟨?_, ?_, ?_, ?_⟩
  · intro h1
    rw [if_pos h1]
    simp
  · intro h1 h2
    rw [if_neg (not_lt.mpr h1), if_pos h2]
    simp
  · intro h1 h2 h3
    rw [if_neg (not_lt.mpr h1), if_neg (not_lt.mpr h2), if_pos h3]
    simp
  · intro h1 h2 h3
    rw [if_neg (not_lt.mpr h1), if_neg (not_lt.mpr h2), if_neg (not_lt.mpr h3)]

/-- Witness for C4: one log whose body contains `"error"` — error rate 1,
critical branch. -/
theorem c4_log_rule_priority_witness :
    log_error_rate [errLog] > 1/10 ∧
    (analyze_service_logs 5 "api" [errLog]).length = 1 ∧
    ∀ inc ∈ analyze_service_logs 5 "api" [errLog],
      inc.type = "log_errors" ∧ inc.severity = "critical" := by
  have hrate : log_error_rate [errLog] > 1/10 := by
    with_unfolding_all decide
  exact ⟨hrate, (c4_log_rule_priority 5 "api" [errLog] (by simp)).1 hrate⟩

end AILogs

namespace AILogs

/-! ## C7 -/

/-- `analyze_realtime_data` either leaves the registry unchanged (a stage
raised) or extends it with candidates that all have significant severity. -/
theorem analyze_realtime_data_snd (llm : String → Except String String)
    (now : Time) (st : List Incident) (logs : List OTLPLog)
    (spans : List OTLPSpan) (metrics : List OTLPMetric) :
    (analyze_realtime_data llm now st logs spans metrics).2 = st ∨
    ∃ sig : List Incident, (∀ inc ∈ sig, sevSignificant inc.severity = true) ∧
      (analyze_realtime_data llm now st logs spans metrics).2 = st ++ sig := by
  unfold analyze_realtime_data
  cases hm : analyze_metrics_for_anomalies now metrics with
  | error e => left; rfl
  | ok mi =>
      right
      refine ⟨(enrich_incidents_with_ai llm now
          (analyze_logs_for_incidents now logs ++
            analyze_traces_for_incidents now spans ++ mi)).filter
          (fun inc => sevSignificant inc.severity),
        fun inc hin => (List.mem_filter.mp hin).2, rfl⟩

/-- Updating one counter leaves every other key's count unchanged. -/
theorem getCount_bump_ne (l : List (String × ℕ)) (k k2 : String)
    (hne : k2 ≠ k) :
    getCount (l.map fun p => if p.1 = k then (p.1, p.2 + 1) else p) k2 =
      getCount l k2 := by
  induction l with
  | nil => rfl
  | cons p rest ih =>
      rcases p with ⟨a, b⟩
      by_cases hak : a = k
      · subst hak
        have hd : (if ((a, b) : String × ℕ).1 = a then ((a, b).1, (a, b).2 + 1) else (a, b)) =
            (a, b + 1) := by simp
        rw [List.map_cons, hd]
        simp [getCount, hne, ih]
      · have hd : (if ((a, b) : String × ℕ).1 = k then ((a, b).1, (a, b).2 + 1) else (a, b)) =
            (a, b) := by simp [hak]
        rw [List.map_cons, hd]
        simp [getCount, ih]

/-- Updating a counter never changes which keys are present. -/
theorem any_bump_map (l : List (String × ℕ)) (k s : String) :
    ((l.map fun p => if p.1 = k then (p.1, p.2 + 1) else p).any
        fun p => decide (p.1 = s)) =
      (l.any fun p => decide (p.1 = s)) := by
  induction l with
  | nil => rfl
  | cons p rest ih =>
      rcases p with ⟨a, b⟩
      by_cases hak : a = k
      · subst hak
        have hd : (if ((a, b) : String × ℕ).1 = a then ((a, b).1, (a, b).2 + 1) else (a, b)) =
            (a, b + 1) := by simp
        rw [List.map_cons, hd]
        simp [ih]
      · have hd : (if ((a, b) : String × ℕ).1 = k then ((a, b).1, (a, b).2 + 1) else (a, b)) =
            (a, b) := by simp [hak]
        rw [List.map_cons, hd]
        simp [ih]

/-- When every incident has significant severity, the statistics counting
loop of lines 457–465 never raises `KeyError` and the `"low"` counter stays
0. -/
theorem statsLoop_ok (active : List Incident) :
    ∀ bt bs : List (String × ℕ),
    (∀ inc ∈ active, sevSignificant inc.severity = true) →
    getCount bs "low" = some 0 →
    (∀ s, sevSignificant s = true → (bs.any fun p => decide (p.1 = s)) = true) →
    ∃ bt2 bs2, statsLoop active bt bs = .ok (bt2, bs2) ∧
      getCount bs2 "low" = some 0 := by
  induction active with
  | nil => exact fun bt bs _ hlow _ => ⟨bt, bs, rfl, hlow⟩
  | cons inc rest ih =>
      intro bt bs hall hlow hkeys
      have hsig : sevSignificant inc.severity = true := hall inc (by simp)
      have hany := hkeys inc.severity hsig
      have hne : ("low" : String) ≠ inc.severity := by
        intro hEq
        rw [← hEq] at hsig
        exact absurd hsig (by decide)
      obtain ⟨bt2, bs2, hrec, hlow2⟩ := ih (bumpOrInitKey bt inc.type)
        (bs.map fun p => if p.1 = inc.severity then (p.1, p.2 + 1) else p)
        (fun i hi => hall i (List.mem_cons_of_mem _ hi))
        (by rw [getCount_bump_ne bs inc.severity "low" hne]; exact hlow)
        (fun s hs => by rw [any_bump_map]; exact hkeys s hs)
      refine ⟨bt2, bs2, ?_, hlow2⟩
      simp only [statsLoop, bumpKey, hany, if_true]
      exact hrec

/-- C7: in every reachable registry state, every stored incident has
significant severity (`medium`/`high`/`critical`) — a candidate whose
severity is not significant (e.g. `low`) is dropped by admission and so never
appears in any later `active` result, and the statistics `"low"` counter is
always 0 (and the statistics call never raises). -/
theorem c7_registry_severity_invariant (st : List Incident)
    (h : Reachable st) :
    (∀ inc ∈ st, sevSignificant inc.severity = true) ∧
    (∀ now : Time, ∀ inc ∈ (get_active_incidents st now).1,
        sevSignificant inc.severity = true) ∧
    (∀ now : Time, ∃ stats : IncidentStats,
        (get_incident_statistics st now).1 = .ok stats ∧
        getCount stats.by_severity "low" = some 0) := by
  have hinv : ∀ inc ∈ st, sevSignificant inc.severity = true := by
    induction h with
    | init => simp
    | analyze llm now logs spans metrics st0 h0 ih =>
        rcases analyze_realtime_data_snd llm now st0 logs spans metrics with
          heq | ⟨sig, hsig, heq⟩
        · rw [heq]; exact ih
        · rw [heq]
          intro inc hin
          rcases List.mem_append.mp hin with hmem | hmem
          · exact ih inc hmem
          · exact hsig inc hmem
    | admitStep st0 cands h0 ih =>
        intro inc hin
        rcases List.mem_append.mp hin with hmem | hmem
        · exact ih inc hmem
        · exact (List.mem_filter.mp hmem).2
    | read st0 now h0 ih =>
        intro inc hin
        exact ih inc (List.mem_filter.mp hin).1
  refine ⟨hinv, ?_, ?_⟩
  · intro now inc hin
    exact hinv inc (List.mem_filter.mp hin).1
  · intro now
    obtain ⟨bt2, bs2, hloop, hlow⟩ :=
      statsLoop_ok (get_active_incidents st now).1 [] sevInit
        (fun inc hin => hinv inc (List.mem_filter.mp hin).1)
        rfl
        (fun s hs => by
          simp only [sevSignificant, Bool.or_eq_true, beq_iff_eq] at hs
          rcases hs with (rfl | rfl) | rfl <;> rfl)
    refine ⟨{ total_active_incidents := (get_active_incidents st now).1.length
              by_type := bt2, by_severity := bs2, last_updated := now },
      ?_, hlow⟩
    unfold get_incident_statistics
    rw [hloop]

/-- A candidate incident with severity `low`, never admitted. -/
def lowInc : Incident :=
  { type := "log_warnings", service := "api", severity := "low"
    description := "d", metrics := [], timestamp := 10 }

/-- Witness for C7: a reachable state built by admitting a `low` candidate
together with a `high` one. -/
theorem c7_registry_severity_invariant_witness :
    (∀ inc ∈ admit_significant [] [lowInc, testIncident],
        sevSignificant inc.severity = true) ∧
    (∃ stats : IncidentStats,
        (get_incident_statistics (admit_significant [] [lowInc, testIncident]) 20).1 =
          .ok stats ∧
        getCount stats.by_severity "low" = some 0) := by
  obtain ⟨h1, h2, h3⟩ := c7_registry_severity_invariant _
    (Reachable.admitStep [] [lowInc, testIncident] Reachable.init)
  exact ⟨h1, h3 20⟩

/-! ## C8 -/

/-- C8: `active(now)` returns exactly the stored incidents younger than one
hour and replaces the store with that list; after the read nothing older than
the window remains; and — when no stored timestamp lies in the future of the
first read — reading again 61 minutes later with no intervening admissions
returns the empty list and leaves the store empty. -/
theorem c8_active_prune_on_read (st : List Incident) (now : Time)
    (h : ∀ inc ∈ st, inc.timestamp ≤ now) :
    ((get_active_incidents st now).1 =
      st.filter fun inc => decide (inc.timestamp > now - 3600)) ∧
    (get_active_incidents st now).2 = (get_active_incidents st now).1 ∧
    (∀ inc ∈ (get_active_incidents st now).2, inc.timestamp > now - 3600) ∧
    get_active_incidents (get_active_incidents st now).2 (now + 61 * 60) =
      ([], []) := by
  refine ⟨rfl, rfl, ?_, ?_⟩
  · intro inc hin
    have hp := (List.mem_filter.mp hin).2
    exact of_decide_eq_true hp
  · have hnil : (get_active_incidents st now).2.filter
        (fun inc => decide (inc.timestamp > now + 61 * 60 - 3600)) = [] := by
      rw [List.filter_eq_nil_iff]
      intro inc hin
      have hle := h inc (List.mem_filter.mp hin).1
      simp only [decide_eq_true_eq, not_lt]
      linarith
    show ((get_active_incidents st now).2.filter
        (fun inc => decide (inc.timestamp > now + 61 * 60 - 3600)),
      (get_active_incidents st now).2.filter
        (fun inc => decide (inc.timestamp > now + 61 * 60 - 3600))) = ([], [])
    rw [hnil]

/-- Witness for C8 on a one-incident registry read at `now = 20` and again at
`now = 20 + 61min`. -/
theorem c8_active_prune_on_read_witness :
    (∀ inc ∈ [testIncident], inc.timestamp ≤ 20) ∧
    (((get_active_incidents [testIncident] 20).1 =
        [testIncident].filter fun inc => decide (inc.timestamp > 20 - 3600)) ∧
      (get_active_incidents [testIncident] 20).2 =
        (get_active_incidents [testIncident] 20).1 ∧
      (∀ inc ∈ (get_active_incidents [testIncident] 20).2,
        inc.timestamp > 20 - 3600) ∧
      get_active_incidents (get_active_incidents [testIncident] 20).2
        (20 + 61 * 60) = ([], [])) := by
  have h : ∀ inc ∈ [testIncident], inc.timestamp ≤ 20 := by
    intro inc hin
    simp only [List.mem_singleton] at hin
    rw [hin]
    with_unfolding_all decide
  exact ⟨h, c8_active_prune_on_read [testIncident] 20 h⟩

end AILogs

namespace AILogs

/-! ## C2 -/

/-- C2 counterexample: a logs payload whose record list is `[good, bad]`
(the bad record is the number 5, not an object).  The good record alone
decodes to one `LogRecord`; with the malformed sibling present the whole
decode aborts at the record-level `AttributeError`, is caught by the
function-level handler, and returns `[]` — the well-formed record is
discarded too, and no count of dropped records exists anywhere in the
result. -/
theorem c2_counterexample :
    parse_logs_data 0 (mkLogsPayload [goodLogRecord]) =
      [{ timestamp := 1, body := Json.obj [("message", Json.str "hello")],
         attributes := Json.arr [], resource := Json.arr [svcAttr],
         service_name := "api" }] ∧
    parse_logs_data 0 (mkLogsPayload [goodLogRecord, Json.num 5]) = [] := by
  constructor
  · with_unfolding_all rfl
  · with_unfolding_all rfl

/-- C2 (amended): no decode function ever raises to its caller — each returns
its traversal's result, or the empty list when the traversal raised (for logs
and traces one malformed record therefore discards the whole payload's
records); only the metrics decoder isolates failures per record: within a
scope, each metric definition is decoded independently and a failing one is
dropped alone.  No count of dropped records is recorded. -/
theorem c2_decoders_amended :
    (∀ (now : Time) (body : Json), parse_logs_data now body = [] ∨
      ∃ l, parseLogsCore now body = .ok l ∧ parse_logs_data now body = l) ∧
    (∀ (now : Time) (body : Json), parse_traces_data now body = [] ∨
      ∃ l, parseTracesCore now body = .ok l ∧ parse_traces_data now body = l) ∧
    (∀ (now : Time) (body : Json), parse_metrics_data now body = [] ∨
      ∃ l, parseMetricsCore now body = .ok l ∧ parse_metrics_data now body = l) ∧
    (∀ (now : Time) (recs : List Json),
      parse_metrics_data now (mkMetricsPayload recs) =
        recs.filterMap (parse_single_metric now)) := by
  refine ⟨?_, ?_, ?_, ?_⟩
  · intro now body
    cases hc : parseLogsCore now body with
    | error e => left; simp [parse_logs_data, hc]
    | ok l => right; exact ⟨l, rfl, by simp [parse_logs_data, hc]⟩
  · intro now body
    cases hc : parseTracesCore now body with
    | error e => left; simp [parse_traces_data, hc]
    | ok l => right; exact ⟨l, rfl, by simp [parse_traces_data, hc]⟩
  · intro now body
    cases hc : parseMetricsCore now body with
    | error e => left; simp [parse_metrics_data, hc]
    | ok l => right; exact ⟨l, rfl, by simp [parse_metrics_data, hc]⟩
  · intro now recs
    rfl

end AILogs

namespace AILogs

/-! ## C9 -/

/-- A decoded log with the (possibly wall-clock-filled) timestamp erased. -/
def logSansTs (log : OTLPLog) : OTLPLog := { log with timestamp := 0 }

/-- A decoded span with both timestamps erased. -/
def spanSansTs (span : OTLPSpan) : OTLPSpan :=
  { span with start_time := 0, end_time := 0 }

/-- A decoded metric point with the timestamp erased. -/
def metricSansTs (m : OTLPMetric) : OTLPMetric := { m with timestamp := 0 }

/-- Two fallible computations agree up to an erasure `r`: same exception, or
results equal after applying `r`. -/
def ExceptRel {α β : Type} (r : α → β) :
    Except PyErr α → Except PyErr α → Prop
  | .ok a1, .ok a2 => r a1 = r a2
  | .error e1, .error e2 => e1 = e2
  | _, _ => False

/-- `ExceptRel` is reflexive. -/
theorem ExceptRel_refl {α β : Type} (r : α → β) (e : Except PyErr α) :
    ExceptRel r e e := by
  cases e <;> rfl

/-- Successful computations are related when their erasures agree. -/
theorem ExceptRel_pure {α β : Type} (r : α → β) (a1 a2 : α) (h : r a1 = r a2) :
    ExceptRel r (pure a1) (pure a2) := h

/-- Binding the SAME prefix computation on both sides preserves the
relation, provided the continuations are pointwise related. -/
theorem ExceptRel_bind {α β γ : Type} (r : α → β) (e : Except PyErr γ)
    (k1 k2 : γ → Except PyErr α) (h : ∀ c, ExceptRel r (k1 c) (k2 c)) :
    ExceptRel r (e >>= k1) (e >>= k2) := by
  cases e with
  | error e1 => exact rfl
  | ok c => exact h c

/-- Binding related prefix computations preserves the relation, provided the
continuations are related on erasure-equal inputs. -/
theorem ExceptRel_bind2 {α α2 β β2 : Type} (r : α → β) (r2 : α2 → β2)
    (e1 e2 : Except PyErr α2) (he : ExceptRel r2 e1 e2)
    (k1 k2 : α2 → Except PyErr α)
    (hk : ∀ c1 c2, r2 c1 = r2 c2 → ExceptRel r (k1 c1) (k2 c2)) :
    ExceptRel r (e1 >>= k1) (e2 >>= k2) := by
  cases e1 with
  | error x1 =>
      cases e2 with
      | error x2 =>
          have hx : x1 = x2 := he
          subst hx
          exact rfl
      | ok c2 => exact False.elim he
  | ok c1 =>
      cases e2 with
      | error x2 => exact False.elim he
      | ok c2 => exact hk c1 c2 he

/-- A monadic fold preserves the relation when its step functions do. -/
theorem ExceptRel_foldlM {α β γ : Type} (r : α → β)
    (f g : List α → γ → Except PyErr (List α))
    (hfg : ∀ acc1 acc2, acc1.map r = acc2.map r →
      ∀ c, ExceptRel (List.map r) (f acc1 c) (g acc2 c)) :
    ∀ (l : List γ) (acc1 acc2 : List α), acc1.map r = acc2.map r →
      ExceptRel (List.map r) (List.foldlM f acc1 l) (List.foldlM g acc2 l) := by
  intro l
  induction l with
  | nil => intro a1 a2 h; exact h
  | cons c cs ih =>
      intro a1 a2 h
      rw [List.foldlM_cons, List.foldlM_cons]
      have step := hfg a1 a2 h c
      cases h1 : f a1 c with
      | error e1 =>
          cases h2 : g a2 c with
          | error e2 =>
              rw [h1, h2] at step
              have he : e1 = e2 := step
              subst he
              exact rfl
          | ok l2 => rw [h1, h2] at step; exact False.elim step
      | ok l1 =>
          cases h2 : g a2 c with
          | error e2 => rw [h1, h2] at step; exact False.elim step
          | ok l2 =>
              rw [h1, h2] at step
              exact ih l1 l2 step

/-- One log record decodes, at two decode times, to records that differ at
most in the timestamp (or raises the same exception at both). -/
theorem parseLogRecord_rel (t1 t2 : Time) (resource : Json) (svc : String)
    (record : Json) :
    ExceptRel logSansTs (parseLogRecord t1 resource svc record)
      (parseLogRecord t2 resource svc record) := by
  unfold parseLogRecord
  apply ExceptRel_bind
  intro tsJ
  apply ExceptRel_bind
  intro attrs
  apply ExceptRel_pure
  rfl

/-- `parseLogsCore` at two decode times: same exception or same records up to
timestamps. -/
theorem parseLogsCore_rel (t1 t2 : Time) (body : Json) :
    ExceptRel (List.map logSansTs) (parseLogsCore t1 body)
      (parseLogsCore t2 body) := by
  unfold parseLogsCore
  apply ExceptRel_bind
  intro a
  apply ExceptRel_bind
  intro rls
  apply ExceptRel_foldlM logSansTs _ _ ?_ rls [] [] rfl
  intro acc1 acc2 hacc resource_log
  apply ExceptRel_bind
  intro res
  apply ExceptRel_bind
  intro resource
  apply ExceptRel_bind
  intro service_name
  apply ExceptRel_bind
  intro b
  apply ExceptRel_bind
  intro sls
  apply ExceptRel_foldlM logSansTs _ _ ?_ sls acc1 acc2 hacc
  intro acc3 acc4 hacc2 scope_log
  apply ExceptRel_bind
  intro c
  apply ExceptRel_bind
  intro lrs
  apply ExceptRel_foldlM logSansTs _ _ ?_ lrs acc3 acc4 hacc2
  intro acc5 acc6 hacc3 record
  apply ExceptRel_bind2 _ logSansTs _ _ (parseLogRecord_rel t1 t2 resource service_name record)
  intro log1 log2 hlog
  apply ExceptRel_pure
  simp [List.map_append, hacc3, hlog]

end AILogs

namespace AILogs

/-- One span record decodes, at two decode times, to spans that differ at
most in the two timestamps (or raises the same exception at both). -/
theorem parseSpanRecord_rel (t1 t2 : Time) (svc : String) (span_data : Json) :
    ExceptRel spanSansTs (parseSpanRecord t1 svc span_data)
      (parseSpanRecord t2 svc span_data) := by
  unfold parseSpanRecord
  repeat (apply ExceptRel_bind; intro _)
  apply ExceptRel_pure
  rfl

/-- `parseTracesCore` at two decode times: same exception or same spans up to
timestamps. -/
theorem parseTracesCore_rel (t1 t2 : Time) (body : Json) :
    ExceptRel (List.map spanSansTs) (parseTracesCore t1 body)
      (parseTracesCore t2 body) := by
  unfold parseTracesCore
  apply ExceptRel_bind
  intro a
  apply ExceptRel_bind
  intro rss
  apply ExceptRel_foldlM spanSansTs _ _ ?_ rss [] [] rfl
  intro acc1 acc2 hacc resource_span
  apply ExceptRel_bind
  intro res
  apply ExceptRel_bind
  intro resource
  apply ExceptRel_bind
  intro service_name
  apply ExceptRel_bind
  intro b
  apply ExceptRel_bind
  intro sss
  apply ExceptRel_foldlM spanSansTs _ _ ?_ sss acc1 acc2 hacc
  intro acc3 acc4 hacc2 scope_span
  apply ExceptRel_bind
  intro c
  apply ExceptRel_bind
  intro srs
  apply ExceptRel_foldlM spanSansTs _ _ ?_ srs acc3 acc4 hacc2
  intro acc5 acc6 hacc3 span_data
  apply ExceptRel_bind2 _ spanSansTs _ _ (parseSpanRecord_rel t1 t2 service_name span_data)
  intro s1 s2 hs
  apply ExceptRel_pure
  simp [List.map_append, hacc3, hs]

/-- `parseSingleMetricCore` at two decode times: same exception, or the same
optional metric up to the timestamp. -/
theorem parseSingleMetricCore_rel (t1 t2 : Time) (metric_data : Json) :
    ExceptRel (Option.map metricSansTs) (parseSingleMetricCore t1 metric_data)
      (parseSingleMetricCore t2 metric_data) := by
  unfold parseSingleMetricCore
  apply ExceptRel_bind
  intro a
  apply ExceptRel_bind
  intro nm
  apply ExceptRel_bind
  intro b
  apply ExceptRel_bind
  intro u
  apply ExceptRel_bind
  intro gauge
  cases hg : gauge.pyTruthy with
  | false =>
      simp only [hg, Bool.false_eq_true, if_false]
      exact ExceptRel_refl _ _
  | true =>
      simp only [hg, if_true]
      apply ExceptRel_bind
      intro c
      apply ExceptRel_bind
      intro dps
      cases dps with
      | nil => exact ExceptRel_refl _ _
      | cons point rest =>
          repeat (apply ExceptRel_bind; intro _)
          apply ExceptRel_pure
          rfl

/-- `parse_single_metric` at two decode times agrees up to the timestamp. -/
theorem parse_single_metric_rel (t1 t2 : Time) (metric_data : Json) :
    Option.map metricSansTs (parse_single_metric t1 metric_data) =
      Option.map metricSansTs (parse_single_metric t2 metric_data) := by
  have h := parseSingleMetricCore_rel t1 t2 metric_data
  unfold parse_single_metric
  cases h1 : parseSingleMetricCore t1 metric_data with
  | error e1 =>
      cases h2 : parseSingleMetricCore t2 metric_data with
      | error e2 => rfl
      | ok o2 => rw [h1, h2] at h; exact False.elim h
  | ok o1 =>
      cases h2 : parseSingleMetricCore t2 metric_data with
      | error e2 => rw [h1, h2] at h; exact False.elim h
      | ok o2 => rw [h1, h2] at h; exact h

/-- `filterMap` preserves agreement up to erasure. -/
theorem filterMap_map_rel {γ α β : Type} (r : α → β) (f g : γ → Option α)
    (h : ∀ c, Option.map r (f c) = Option.map r (g c)) (l : List γ) :
    (l.filterMap f).map r = (l.filterMap g).map r := by
  induction l with
  | nil => rfl
  | cons c cs ih =>
      rw [List.filterMap_cons, List.filterMap_cons]
      have hc := h c
      cases h1 : f c with
      | none =>
          cases h2 : g c with
          | none => exact ih
          | some a2 => rw [h1, h2] at hc; simp at hc
      | some a1 =>
          cases h2 : g c with
          | none => rw [h1, h2] at hc; simp at hc
          | some a2 =>
              rw [h1, h2] at hc
              simp only [Option.map_some'] at hc
              have hr : r a1 = r a2 := Option.some.inj hc
              simp [ih, hr]

/-- `parseMetricsCore` at two decode times: same exception or same points up
to timestamps. -/
theorem parseMetricsCore_rel (t1 t2 : Time) (body : Json) :
    ExceptRel (List.map metricSansTs) (parseMetricsCore t1 body)
      (parseMetricsCore t2 body) := by
  unfold parseMetricsCore
  apply ExceptRel_bind
  intro a
  apply ExceptRel_bind
  intro rms
  apply ExceptRel_foldlM metricSansTs _ _ ?_ rms [] [] rfl
  intro acc1 acc2 hacc resource_metric
  apply ExceptRel_bind
  intro b
  apply ExceptRel_bind
  intro sms
  apply ExceptRel_foldlM metricSansTs _ _ ?_ sms acc1 acc2 hacc
  intro acc3 acc4 hacc2 scope_metric
  apply ExceptRel_bind
  intro c
  apply ExceptRel_bind
  intro mrs
  apply ExceptRel_pure
  rw [List.map_append, List.map_append, hacc2,
    filterMap_map_rel metricSansTs (parse_single_metric t1) (parse_single_metric t2)
      (parse_single_metric_rel t1 t2) mrs]

/-- C9 counterexample: a payload whose single record carries no
`timeUnixNano` decodes to different records at decode times 0 and 1 — the
decoder's output depends on the wall clock through the timestamp fallback. -/
theorem c9_counterexample :
    parse_logs_data 0 (mkLogsPayload [Json.obj [("body",
        Json.obj [("stringValue", Json.str "x")])]]) ≠
      parse_logs_data 1 (mkLogsPayload [Json.obj [("body",
        Json.obj [("stringValue", Json.str "x")])]]) := by
  intro h
  have h0 : (parse_logs_data 0 (mkLogsPayload [Json.obj [("body",
      Json.obj [("stringValue", Json.str "x")])]])).map OTLPLog.timestamp = [0] := by
    with_unfolding_all rfl
  have h1 : (parse_logs_data 1 (mkLogsPayload [Json.obj [("body",
      Json.obj [("stringValue", Json.str "x")])]])).map OTLPLog.timestamp = [1] := by
    with_unfolding_all rfl
  rw [h, h1] at h0
  exact absurd h0 (by simp)

/-- C9 (amended): each decode function is a pure function of the payload and
the decode time, and two decodes of the same payload at any two decode times
agree except possibly in the timestamp fields, which fall back to the wall
clock when a record's `timeUnixNano` is missing or unparseable; in
particular the record count, order, bodies, attributes and service names
never differ between the two decodes. -/
theorem c9_decoder_deterministic_amended :
    (∀ (t1 t2 : Time) (body : Json),
        (parse_logs_data t1 body).map logSansTs =
          (parse_logs_data t2 body).map logSansTs) ∧
    (∀ (t1 t2 : Time) (body : Json),
        (parse_traces_data t1 body).map spanSansTs =
          (parse_traces_data t2 body).map spanSansTs) ∧
    (∀ (t1 t2 : Time) (body : Json),
        (parse_metrics_data t1 body).map metricSansTs =
          (parse_metrics_data t2 body).map metricSansTs) := by
  refine ⟨?_, ?_, ?_⟩
  · intro t1 t2 body
    have h := parseLogsCore_rel t1 t2 body
    unfold parse_logs_data
    cases h1 : parseLogsCore t1 body with
    | error e1 =>
        cases h2 : parseLogsCore t2 body with
        | error e2 => rfl
        | ok l2 => rw [h1, h2] at h; exact False.elim h
    | ok l1 =>
        cases h2 : parseLogsCore t2 body with
        | error e2 => rw [h1, h2] at h; exact False.elim h
        | ok l2 => rw [h1, h2] at h; exact h
  · intro t1 t2 body
    have h := parseTracesCore_rel t1 t2 body
    unfold parse_traces_data
    cases h1 : parseTracesCore t1 body with
    | error e1 =>
        cases h2 : parseTracesCore t2 body with
        | error e2 => rfl
        | ok l2 => rw [h1, h2] at h; exact False.elim h
    | ok l1 =>
        cases h2 : parseTracesCore t2 body with
        | error e2 => rw [h1, h2] at h; exact False.elim h
        | ok l2 => rw [h1, h2] at h; exact h
  · intro t1 t2 body
    have h := parseMetricsCore_rel t1 t2 body
    unfold parse_metrics_data
    cases h1 : parseMetricsCore t1 body with
    | error e1 =>
        cases h2 : parseMetricsCore t2 body with
        | error e2 => rfl
        | ok l2 => rw [h1, h2] at h; exact False.elim h
    | ok l1 =>
        cases h2 : parseMetricsCore t2 body with
        | error e2 => rw [h1, h2] at h; exact False.elim h
        | ok l2 => rw [h1, h2] at h; exact h

end AILogs
